import Mathlib

/-!
Verification development for the notification dispatch component of the
hydromet backend (src/scripts/notification_util.py).

The embedding models:
- parsed JSON values and Python truthiness / str() rendering, as used by
  the gateway-response classification;
- the bulk SMS gateway client `_send_sms_batch`;
- the recipient directory adapter `_get_registered_users_phones` together
  with the SQL filter it issues;
- the message composer `_create_sms_message`;
- the dispatcher `NotificationService.send_notification` and the service
  constructor `NotificationService.__init__`;
- the convenience entry points `send_event_notification`, `send_sms_only`
  and `send_weather_alert`.

Python strings are modelled as `List Char` where character-level slicing
matters (the composer) and as `String` elsewhere.  Python exceptions are
modelled with `Except PyErr`; for each operation there is a pure model
(the value actually computed, all handlers applied) and an
exception-transparent model (suffix `E`) in which the places where the
source raises and catches are explicit.  Machine-visible effects (whether
an HTTP POST was attempted, whether the database was queried, the exact
document passed to the event-log write) are recorded in trace structures.
-/

namespace Hydromet

/-- Parsed JSON values, as returned by `response.json()`. -/
inductive JVal where
  | jnull
  | jbool (b : Bool)
  | jnum (n : Int)
  | jstr (s : String)
  | jarr (xs : List JVal)
  | jobj (fields : List (String × JVal))

/-- Python truthiness of a JSON value (`bool(v)`), with `jnull` playing
Python `None`. -/
def JVal.truthy : JVal → Bool
  | .jnull => false
  | .jbool b => b
  | .jnum n => n != 0
  | .jstr s => s != ""
  | .jarr xs => !xs.isEmpty
  | .jobj fields => !fields.isEmpty

/-- Dictionary lookup, `d.get(key)`: first binding of the key, if any. -/
def jget (fields : List (String × JVal)) (key : String) : Option JVal :=
  (fields.find? (fun p => p.1 == key)).map (fun p => p.2)

mutual

/-- Python `repr` of a JSON value (the rendering `str` uses for
containers). -/
def pyRepr : JVal → String
  | .jnull => "None"
  | .jbool b => if b then "True" else "False"
  | .jnum n => toString n
  | .jstr s => "\x27" ++ s ++ "\x27"
  | .jarr xs => "[" ++ pyReprList xs ++ "]"
  | .jobj fields => "\x7b" ++ pyReprObj fields ++ "\x7d"

/-- Comma-separated rendering of list elements. -/
def pyReprList : List JVal → String
  | [] => ""
  | [x] => pyRepr x
  | x :: y :: rest => pyRepr x ++ ", " ++ pyReprList (y :: rest)

/-- Comma-separated rendering of dictionary entries. -/
def pyReprObj : List (String × JVal) → String
  | [] => ""
  | [(k, v)] => "\x27" ++ k ++ "\x27: " ++ pyRepr v
  | (k, v) :: p :: rest => "\x27" ++ k ++ "\x27: " ++ pyRepr v ++ ", " ++ pyReprObj (p :: rest)

end

/-- Python `str` of a JSON value: a string renders as itself, everything
else as its `repr`. -/
def pyStr : JVal → String
  | .jstr s => s
  | v => pyRepr v

/-- Python `str.lower()`. -/
def pyLower (s : String) : String :=
  s.map Char.toLower

/-- Whether the first character list is an initial segment of the
second. -/
def leadsWith : List Char → List Char → Bool
  | [], _ => true
  | _ :: _, [] => false
  | a :: as, b :: bs => a == b && leadsWith as bs

/-- Whether the first character list occurs contiguously inside the
second. -/
def occursIn : List Char → List Char → Bool
  | needle, [] => needle.isEmpty
  | needle, c :: t => leadsWith needle (c :: t) || occursIn needle t

/-- Python substring membership, `needle in hay`. -/
def pyIn (needle hay : String) : Bool :=
  occursIn needle.data hay.data

/-- Python truthiness of an optional string (`os.getenv` result): `None`
and the empty string are falsy. -/
def pyTruthyOpt : Option String → Bool
  | none => false
  | some s => s != ""

/-- A Python exception value (the code only ever catches broadly, so the
message is all that is observed). -/
inductive PyErr where
  | exc (msg : String)
deriving DecidableEq

/-- What the world does with the single `requests.post` of a dispatch:
the request times out, fails at transport level, or yields a response
with a status code and a body.  The body is `none` when `response.json()`
would fail to parse it, and `some v` for the parsed JSON value `v`. -/
inductive HttpResult where
  | timeout
  | netError
  | reply (status : Nat) (body : Option JVal)

/-- Observable outcome of `_send_sms_batch`: whether an HTTP POST was
attempted, how the single response was classified, the per-batch counts
the code logs (`sent/total`), and the comma-joined `phone_number` field
of the POST payload (`none` when no call was attempted). -/
structure SmsOutcome where
  networkCall : Bool
  sent : Bool
  succeededCount : Nat
  failedCount : Nat
  phoneField : Option String
deriving DecidableEq

/-- The success test the code applies to a parsed 200 body:
`result.get("success") or "successfully" in str(result.get("message", "")).lower()`. -/
def checkSuccess (fields : List (String × JVal)) : Bool :=
  ((jget fields "success").getD .jnull).truthy
    || pyIn "successfully" (pyLower (pyStr ((jget fields "message").getD (.jstr ""))))

/-- `NotificationService._send_sms_batch`, pure model: the value the
code's control flow computes after all its handlers have run.  With no
(truthy) API key the function returns before any network activity;
otherwise the POST is attempted unconditionally, the recipient list is
comma-joined into the `phone_number` field, and the response is
classified: timeout / transport error / non-200 / unparseable body /
non-object body / missing success indicator all log `0/n sent`, and only
a 200 object body passing `checkSuccess` logs `n/n sent`. -/
def sendSmsBatch (apiKey : Option String) (recipients : List String)
    (message : List Char) (net : HttpResult) : SmsOutcome :=
  if !pyTruthyOpt apiKey then
    ⟨false, false, 0, 0, none⟩
  else
    let phone_numbers := String.intercalate "," recipients
    let fail : SmsOutcome := ⟨true, false, 0, recipients.length, some phone_numbers⟩
    match net with
    | .timeout => fail
    | .netError => fail
    | .reply status body =>
      if status == 200 then
        match body with
        | some (.jobj fields) =>
          if checkSuccess fields then
            ⟨true, true, recipients.length, 0, some phone_numbers⟩
          else fail
        | _ => fail
      else fail

/-- `requests.post(...)`: raises on timeout or transport failure,
otherwise returns the response. -/
def requests_post (net : HttpResult) : Except PyErr (Nat × Option JVal) :=
  match net with
  | .timeout => .error (.exc "Timeout")
  | .netError => .error (.exc "ConnectionError")
  | .reply status body => .ok (status, body)

/-- `response.json()`: raises when the body is not parseable. -/
def response_json (body : Option JVal) : Except PyErr JVal :=
  match body with
  | none => .error (.exc "JSONDecodeError")
  | some v => .ok v

/-- `result.get(key, default)`: raises `AttributeError` when `result` is
not a dictionary. -/
def jval_get (v : JVal) (key : String) (dflt : JVal) : Except PyErr JVal :=
  match v with
  | .jobj fields => .ok ((jget fields key).getD dflt)
  | _ => .error (.exc "AttributeError")

/-- `NotificationService._send_sms_batch`, exception-transparent model:
the try blocks of the source are explicit.  The inner `try` wraps
`response.json()` and the success check (`except Exception` logs a parse
error and falls through to the `0/n` outcome); the outer `try` wraps the
POST (`except Timeout` / `except Exception` log and fall through).  The
result is an `Except` so that an uncaught exception would be visible as
`.error`. -/
def send_sms_batchE (apiKey : Option String) (recipients : List String)
    (message : List Char) (net : HttpResult) : Except PyErr SmsOutcome :=
  if !pyTruthyOpt apiKey then
    .ok ⟨false, false, 0, 0, none⟩
  else
    let phone_numbers := String.intercalate "," recipients
    let fail : SmsOutcome := ⟨true, false, 0, recipients.length, some phone_numbers⟩
    let attempt : Except PyErr SmsOutcome :=
      match requests_post net with
      | .error e => .error e
      | .ok (status, body) =>
        if status == 200 then
          let inner : Except PyErr SmsOutcome :=
            match response_json body with
            | .error e => .error e
            | .ok result =>
              match jval_get result "success" .jnull with
              | .error e => .error e
              | .ok succFlag =>
                match jval_get result "message" (.jstr "") with
                | .error e => .error e
                | .ok msgVal =>
                  if succFlag.truthy || pyIn "successfully" (pyLower (pyStr msgVal)) then
                    .ok ⟨true, true, recipients.length, 0, some phone_numbers⟩
                  else .ok fail
          match inner with
          | .ok o => .ok o
          | .error _ => .ok fail
        else .ok fail
    match attempt with
    | .ok o => .ok o
    | .error _ => .ok fail

/-- A row of the `users` table, as relevant to the recipient query. -/
structure UserRow where
  phone_number : Option String
  first_name : Option String
  last_name : Option String
  is_verified : Bool
deriving DecidableEq

/-- The SQL query issued by `_get_registered_users_phones`:
`SELECT phone_number, first_name, last_name FROM users WHERE phone_number
IS NOT NULL AND phone_number != '' AND is_verified = true`, evaluated
over a table in its natural order. -/
def usersQuery (table : List UserRow) : List (String × Option String × Option String) :=
  (table.filter (fun u =>
      u.phone_number.isSome && (u.phone_number.getD "" != "") && u.is_verified)).map
    (fun u => (u.phone_number.getD "", u.first_name, u.last_name))

/-- `NotificationService._get_registered_users_phones`, pure model: on a
database error the broad handler returns `[]`; an empty query result also
returns `[]` (after a warning); otherwise the phone column is
extracted. -/
def get_registered_users_phones (db : Except PyErr (List UserRow)) : List String :=
  match db with
  | .error _ => []
  | .ok table =>
    let users := usersQuery table
    if users.isEmpty then []
    else users.map (fun u => u.1)

/-- `NotificationService._get_registered_users_phones`,
exception-transparent model: the body may raise (connection, query), the
`except Exception` handler converts any such error to `[]`. -/
def get_registered_users_phonesE (db : Except PyErr (List UserRow)) : Except PyErr (List String) :=
  let body : Except PyErr (List String) :=
    match db with
    | .error e => .error e
    | .ok table =>
      let users := usersQuery table
      if users.isEmpty then .ok []
      else .ok (users.map (fun u => u.1))
  match body with
  | .ok phones => .ok phones
  | .error _ => .ok []

/-- `NotificationService._create_sms_message`:
`sms = f"TITLE: BODY[:120]"; return sms[:157] + "..." if len(sms) > 160 else sms`,
character-for-character on code points. -/
def create_sms_message (title long_message : List Char) : List Char :=
  let sms := title ++ [':', ' '] ++ long_message.take 120
  if sms.length > 160 then sms.take 157 ++ ['.', '.', '.'] else sms

/-- Python `str.rstrip('/')`. -/
def pyRstripSlash (s : String) : String :=
  String.mk ((s.data.reverse.dropWhile (fun c => c == '/')).reverse)

/-- The hard-coded fallback bulk endpoint used when `IPROG_BASE_URL` is
not set. -/
def defaultBulkUrl : String :=
  "https://sms.iprogtech.com/api/v1/sms_messages/send_bulk"

/-- The state `NotificationService.__init__` establishes. -/
structure Service where
  firestore_enabled : Bool
  api_key : Option String
  api_url : String
deriving DecidableEq

/-- `NotificationService.__init__`: Firestore availability is probed once
(here a boolean input), the API key is taken verbatim from
`IPROG_API_TOKEN`, and the bulk URL is built from `IPROG_BASE_URL` when
that is truthy, else defaulted (with a warning; nothing is disabled by a
missing base URL). -/
def NotificationService.init (firestoreClientPresent : Bool)
    (iprog_api_token iprog_base_url : Option String) : Service :=
  { firestore_enabled := firestoreClientPresent
    api_key := iprog_api_token
    api_url :=
      if pyTruthyOpt iprog_base_url then
        pyRstripSlash (iprog_base_url.getD "") ++ "/sms_messages/send_bulk"
      else defaultBulkUrl }

/-- A Firestore timestamp value: either the server-assigned sentinel
`firestore.SERVER_TIMESTAMP` or a concrete instant. -/
inductive TsVal where
  | server
  | instant (t : Nat)
deriving DecidableEq

/-- The document `send_notification` passes to
`db.collection('notifications').add`. -/
structure NotifDoc where
  dateTime : TsVal
  message : List Char
  title : List Char
  type : String
  status : String
  sentTo : Int
deriving DecidableEq

/-- The in-app document as the dispatcher builds it: `dateTime` is the
server-timestamp sentinel, the remaining fields are the call
arguments. -/
def mkDoc (title message : List Char) (notif_type status : String) (sent_to : Int) : NotifDoc :=
  { dateTime := .server
    message := message
    title := title
    type := notif_type
    status := status
    sentTo := sent_to }

/-- Observable outcome of the dispatcher's log branch. -/
structure LogResult where
  attempted : Bool
  persisted : Bool
  doc : Option NotifDoc
deriving DecidableEq

/-- The log branch of `send_notification`, pure model: when Firestore is
enabled the add is attempted and any error is caught and logged; when
disabled the branch is skipped. -/
def logStep (enabled : Bool) (addResult : Except PyErr Unit) (doc : NotifDoc) : LogResult :=
  if enabled then
    match addResult with
    | .ok _ => ⟨true, true, some doc⟩
    | .error _ => ⟨true, false, some doc⟩
  else ⟨false, false, none⟩

/-- The log branch, exception-transparent model: the `try`/`except`
around the Firestore add is explicit. -/
def firestore_addE (enabled : Bool) (addResult : Except PyErr Unit) (doc : NotifDoc) :
    Except PyErr LogResult :=
  if enabled then
    match addResult with
    | .ok _ => .ok ⟨true, true, some doc⟩
    | .error _ => .ok ⟨true, false, some doc⟩
  else .ok ⟨false, false, none⟩

/-- Observable outcome of the dispatcher's SMS branch. -/
structure SmsStepResult where
  dbQueried : Bool
  smsAttempted : Bool
  outcome : Option SmsOutcome
deriving DecidableEq

/-- The environment one dispatch call runs against: the current Manila
time, the result of the Firestore add were it attempted, the users-table
fetch result, and the network behaviour of the single POST. -/
structure World where
  manilaNow : Nat
  logWrite : Except PyErr Unit
  dbUsers : Except PyErr (List UserRow)
  net : HttpResult

/-- The SMS branch of `send_notification`, pure model: entered only when
`send_sms` is true and the API key is truthy; recipients come from the
argument when supplied, else from the directory adapter; an empty list
skips the send; otherwise the message is composed and the batch send
invoked. -/
def smsStep (svc : Service) (send_sms : Bool) (sms_recipients : Option (List String))
    (title message : List Char) (w : World) : SmsStepResult :=
  if send_sms && pyTruthyOpt svc.api_key then
    match sms_recipients with
    | none =>
      let phones := get_registered_users_phones w.dbUsers
      if phones.isEmpty then ⟨true, false, none⟩
      else ⟨true, true, some (sendSmsBatch svc.api_key phones (create_sms_message title message) w.net)⟩
    | some rs =>
      if rs.isEmpty then ⟨false, false, none⟩
      else ⟨false, true, some (sendSmsBatch svc.api_key rs (create_sms_message title message) w.net)⟩
  else ⟨false, false, none⟩

/-- The SMS branch, exception-transparent model. -/
def smsStepE (svc : Service) (send_sms : Bool) (sms_recipients : Option (List String))
    (title message : List Char) (w : World) : Except PyErr SmsStepResult :=
  if send_sms && pyTruthyOpt svc.api_key then
    match sms_recipients with
    | none =>
      match get_registered_users_phonesE w.dbUsers with
      | .error e => .error e
      | .ok phones =>
        if phones.isEmpty then .ok ⟨true, false, none⟩
        else
          match send_sms_batchE svc.api_key phones (create_sms_message title message) w.net with
          | .error e => .error e
          | .ok o => .ok ⟨true, true, some o⟩
    | some rs =>
      if rs.isEmpty then .ok ⟨false, false, none⟩
      else
        match send_sms_batchE svc.api_key rs (create_sms_message title message) w.net with
        | .error e => .error e
        | .ok o => .ok ⟨false, true, some o⟩
  else .ok ⟨false, false, none⟩

/-- Everything a dispatch call observably does. -/
structure DispatchTrace where
  logAttempted : Bool
  logPersisted : Bool
  logDoc : Option NotifDoc
  dbQueried : Bool
  smsAttempted : Bool
  smsOutcome : Option SmsOutcome
  computedNow : Nat
deriving DecidableEq

/-- `NotificationService.send_notification`, pure model:
`now = dt or datetime.now(Asia/Manila)` is computed (and recorded in the
trace), the log branch runs, then the SMS branch. -/
def send_notification (svc : Service) (title message : List Char)
    (notif_type status : String) (sent_to : Int) (dt : Option Nat)
    (send_sms : Bool) (sms_recipients : Option (List String)) (w : World) : DispatchTrace :=
  let now := dt.getD w.manilaNow
  let ls := logStep svc.firestore_enabled w.logWrite (mkDoc title message notif_type status sent_to)
  let ss := smsStep svc send_sms sms_recipients title message w
  { logAttempted := ls.attempted
    logPersisted := ls.persisted
    logDoc := ls.doc
    dbQueried := ss.dbQueried
    smsAttempted := ss.smsAttempted
    smsOutcome := ss.outcome
    computedNow := now }

/-- `NotificationService.send_notification`, exception-transparent model:
the two branches run in sequence, so an exception escaping the first
would abort the second and escape the call. -/
def send_notificationE (svc : Service) (title message : List Char)
    (notif_type status : String) (sent_to : Int) (dt : Option Nat)
    (send_sms : Bool) (sms_recipients : Option (List String)) (w : World) :
    Except PyErr DispatchTrace :=
  let now := dt.getD w.manilaNow
  match firestore_addE svc.firestore_enabled w.logWrite (mkDoc title message notif_type status sent_to) with
  | .error e => .error e
  | .ok ls =>
    match smsStepE svc send_sms sms_recipients title message w with
    | .error e => .error e
    | .ok ss =>
      .ok { logAttempted := ls.attempted
            logPersisted := ls.persisted
            logDoc := ls.doc
            dbQueried := ss.dbQueried
            smsAttempted := ss.smsAttempted
            smsOutcome := ss.outcome
            computedNow := now }

/-- `send_event_notification`: constructs a fresh service and
dispatches. -/
def send_event_notification (firestoreClientPresent : Bool)
    (iprog_api_token iprog_base_url : Option String)
    (title message : List Char) (notif_type status : String) (sent_to : Int)
    (dt : Option Nat) (send_sms : Bool) (sms_recipients : Option (List String))
    (w : World) : DispatchTrace :=
  send_notification (NotificationService.init firestoreClientPresent iprog_api_token iprog_base_url)
    title message notif_type status sent_to dt send_sms sms_recipients w

/-- `send_sms_only`: constructs a fresh service and calls the batch send
directly (no log branch, no recipient resolution, no empty check). -/
def send_sms_only (firestoreClientPresent : Bool)
    (iprog_api_token iprog_base_url : Option String)
    (phone_numbers : List String) (message : List Char) (net : HttpResult) : SmsOutcome :=
  sendSmsBatch (NotificationService.init firestoreClientPresent iprog_api_token iprog_base_url).api_key
    phone_numbers message net

/-- `send_weather_alert`: dispatch with the fixed warning-sign title
convention, type `Alert`, status `Active`, and `sent_to` left at its
default of `0`. -/
def send_weather_alert (firestoreClientPresent : Bool)
    (iprog_api_token iprog_base_url : Option String)
    (hazard_type message : List Char) (recipients : Option (List String))
    (w : World) : DispatchTrace :=
  send_notification (NotificationService.init firestoreClientPresent iprog_api_token iprog_base_url)
    ("⚠️ ".data ++ hazard_type ++ " Alert".data) message "Alert" "Active" 0 none true recipients w

/-! Helper lemmas: every exception-transparent model returns `.ok` of
its pure counterpart, because each raising site of the source sits under
a handler. -/

/-- The response classification of `_send_sms_batch` collapsed to one
predicate: exactly a 200 status whose body parses to an object passing
`checkSuccess`. -/
def sendOk : HttpResult → Bool
  | .reply status (some (.jobj fields)) => status == 200 && checkSuccess fields
  | _ => false

/-- With a truthy API key the batch send always attempts the POST with
the comma-joined recipients and classifies the single response by
`sendOk`, logging `n/n` on success and `0/n` otherwise. -/
theorem sendSmsBatch_truthy (apiKey : Option String) (hk : pyTruthyOpt apiKey = true)
    (recipients : List String) (message : List Char) (net : HttpResult) :
    sendSmsBatch apiKey recipients message net =
      (if sendOk net then
        ⟨true, true, recipients.length, 0, some (String.intercalate "," recipients)⟩
      else
        ⟨true, false, 0, recipients.length, some (String.intercalate "," recipients)⟩) := by
  cases net with
  | timeout => simp [sendSmsBatch, sendOk, hk]
  | netError => simp [sendSmsBatch, sendOk, hk]
  | reply status body =>
    cases body with
    | none => simp [sendSmsBatch, sendOk, hk, ite_self]
    | some v =>
      cases v with
      | jobj fields =>
        cases hs : (status == 200) with
        | false => simp [sendSmsBatch, sendOk, hk, hs]
        | true =>
          cases hc : checkSuccess fields with
          | false => simp [sendSmsBatch, sendOk, hk, hs, hc]
          | true => simp [sendSmsBatch, sendOk, hk, hs, hc]
      | jnull => simp [sendSmsBatch, sendOk, hk, ite_self]
      | jbool b => simp [sendSmsBatch, sendOk, hk, ite_self]
      | jnum n => simp [sendSmsBatch, sendOk, hk, ite_self]
      | jstr s => simp [sendSmsBatch, sendOk, hk, ite_self]
      | jarr xs => simp [sendSmsBatch, sendOk, hk, ite_self]

/-- With a falsy API key the batch send returns before any network
activity. -/
theorem sendSmsBatch_falsy (apiKey : Option String) (hk : pyTruthyOpt apiKey = false)
    (recipients : List String) (message : List Char) (net : HttpResult) :
    sendSmsBatch apiKey recipients message net = ⟨false, false, 0, 0, none⟩ := by
  simp [sendSmsBatch, hk]

/-- The batch send catches every exception it can encounter. -/
theorem send_sms_batchE_ok (apiKey : Option String) (recipients : List String)
    (message : List Char) (net : HttpResult) :
    send_sms_batchE apiKey recipients message net
      = .ok (sendSmsBatch apiKey recipients message net) := by
  unfold send_sms_batchE sendSmsBatch
  cases hk : pyTruthyOpt apiKey
  · simp
  · simp only [Bool.not_true, Bool.false_eq_true, if_false]
    cases net with
    | timeout => rfl
    | netError => rfl
    | reply status body =>
      simp only [requests_post]
      by_cases hs : (status == 200) = true
      · simp only [hs, if_true]
        cases body with
        | none => rfl
        | some v =>
          cases v with
          | jobj fields =>
            simp only [response_json, jval_get, checkSuccess]
            by_cases hc : (((jget fields "success").getD .jnull).truthy
                || pyIn "successfully" (pyLower (pyStr ((jget fields "message").getD (.jstr ""))))) = true
            · simp [hc]
            · simp [hc]
          | jnull => rfl
          | jbool b => rfl
          | jnum n => rfl
          | jstr s => rfl
          | jarr xs => rfl
      · simp only [Bool.not_eq_true] at hs
        simp [hs]

/-- The directory adapter catches every exception it can encounter. -/
theorem get_registered_users_phonesE_ok (db : Except PyErr (List UserRow)) :
    get_registered_users_phonesE db = .ok (get_registered_users_phones db) := by
  unfold get_registered_users_phonesE get_registered_users_phones
  cases db with
  | error e => rfl
  | ok table =>
    by_cases h : (usersQuery table).isEmpty = true
    · simp [h]
    · simp [h]

/-- The log branch catches every exception it can encounter. -/
theorem firestore_addE_ok (enabled : Bool) (addResult : Except PyErr Unit) (doc : NotifDoc) :
    firestore_addE enabled addResult doc = .ok (logStep enabled addResult doc) := by
  unfold firestore_addE logStep
  cases enabled
  · rfl
  · cases addResult <;> rfl

/-- The SMS branch of the dispatcher never lets an exception escape. -/
theorem smsStepE_ok (svc : Service) (send_sms : Bool) (sms_recipients : Option (List String))
    (title message : List Char) (w : World) :
    smsStepE svc send_sms sms_recipients title message w
      = .ok (smsStep svc send_sms sms_recipients title message w) := by
  unfold smsStepE smsStep
  by_cases hg : (send_sms && pyTruthyOpt svc.api_key) = true
  · simp only [hg, if_true]
    cases sms_recipients with
    | none =>
      rw [get_registered_users_phonesE_ok]
      by_cases he : (get_registered_users_phones w.dbUsers).isEmpty = true
      · simp [he]
      · simp only [he]
        rw [send_sms_batchE_ok]
        simp [he]
    | some rs =>
      by_cases he : rs.isEmpty = true
      · simp [he]
      · simp only [he]
        rw [send_sms_batchE_ok]
        simp [he]
  · simp [hg]

/-- The dispatcher as a whole never lets an exception escape: its
exception-transparent run is `.ok` of the pure trace. -/
theorem send_notificationE_ok (svc : Service) (title message : List Char)
    (notif_type status : String) (sent_to : Int) (dt : Option Nat)
    (send_sms : Bool) (sms_recipients : Option (List String)) (w : World) :
    send_notificationE svc title message notif_type status sent_to dt send_sms sms_recipients w
      = .ok (send_notification svc title message notif_type status sent_to dt send_sms sms_recipients w) := by
  unfold send_notificationE send_notification
  rw [firestore_addE_ok, smsStepE_ok]

/-! Concrete fixtures used by counterexamples and witnesses. -/

/-- A service with Firestore available, an API token, and an explicit
base URL. -/
def svcFs : Service := NotificationService.init true (some "tok") (some "https://sms.example.com")

/-- A service with an API token but no base URL configured. -/
def svcNoBase : Service := NotificationService.init false (some "tok") none

/-- A quiet world: the log write succeeds, the users table is empty, the
gateway answers 200 with an unparseable body. -/
def wBase : World :=
  { manilaNow := 111, logWrite := .ok (), dbUsers := .ok [], net := .reply 200 none }

/-- A world whose users-table query raises. -/
def wDbErr : World :=
  { manilaNow := 0, logWrite := .ok (), dbUsers := .error (.exc "connection refused"),
    net := .reply 200 none }

/-! Claims. -/

/-- Claim C1, counterexample: with an API key configured, the batch send with
an empty recipients sequence does issue an HTTP POST (the source has no
empty check before `requests.post`), contradicting the claim that no
network call is performed. -/
theorem send_sms_only_empty_recipients_posts :
    (send_sms_only false (some "tok") none [] [] (HttpResult.reply 200 none)).networkCall = true := by
  decide

/-- Claim C1, amended: the batch send with an empty recipients sequence
reports 0 sent and 0 failed, but, whenever the API key is configured, it
still issues a network call whose `phone_number` field is the empty
string; the empty-recipients skip lives in the dispatcher, which does
not invoke the batch send on an empty list. -/
theorem empty_recipients_zero_outcome_but_network_call
    (firestoreClientPresent : Bool) (token : String) (hk : pyTruthyOpt (some token) = true)
    (base_url : Option String) (m : List Char) (net : HttpResult)
    (svc : Service) (title msg : List Char) (ty st : String) (sto : Int)
    (dtv : Option Nat) (w : World) :
    ((send_sms_only firestoreClientPresent (some token) base_url [] m net).networkCall = true
      ∧ (send_sms_only firestoreClientPresent (some token) base_url [] m net).succeededCount = 0
      ∧ (send_sms_only firestoreClientPresent (some token) base_url [] m net).failedCount = 0
      ∧ (send_sms_only firestoreClientPresent (some token) base_url [] m net).phoneField = some "")
    ∧ ((send_notification svc title msg ty st sto dtv true (some []) w).smsAttempted = false
      ∧ (send_notification svc title msg ty st sto dtv true (some []) w).smsOutcome = none) := by
  constructor
  · have h1 : send_sms_only firestoreClientPresent (some token) base_url [] m net
        = sendSmsBatch (some token) [] m net := rfl
    rw [h1, sendSmsBatch_truthy (some token) hk]
    cases sendOk net
    · exact ⟨rfl, rfl, rfl, rfl⟩
    · exact ⟨rfl, rfl, rfl, rfl⟩
  · cases hg : (true && pyTruthyOpt svc.api_key) <;>
      simp [send_notification, smsStep, hg]

/-- Claim C1, amended, witness at a concrete input. -/
theorem empty_recipients_zero_outcome_but_network_call_witness :
    (send_sms_only true (some "tok") none [] [] HttpResult.timeout).networkCall = true
    ∧ (send_sms_only true (some "tok") none [] [] HttpResult.timeout).failedCount = 0 :=
  ⟨(empty_recipients_zero_outcome_but_network_call true "tok" (by decide) none []
      HttpResult.timeout svcFs [] [] "W" "A" 0 none wBase).1.1,
   (empty_recipients_zero_outcome_but_network_call true "tok" (by decide) none []
      HttpResult.timeout svcFs [] [] "W" "A" 0 none wBase).1.2.2.1⟩

/-- Claim C2, counterexample: a dispatch with caller-supplied timestamp `5`
persists a document whose `dateTime` is the server-timestamp sentinel,
not the caller's instant: the computed timestamp is not what the
persisted event carries. -/
theorem persisted_dateTime_not_caller_timestamp :
    ((send_notification svcFs ("T".data) ("M".data) "Warning" "Active" 7 (some 5) false none
        wBase).logDoc).map NotifDoc.dateTime = some TsVal.server
    ∧ TsVal.server ≠ TsVal.instant 5 := by
  exact ⟨rfl, by decide⟩

/-- Claim C2, amended: the dispatcher computes `now` as the caller-supplied
timestamp when given, else the current Asia/Manila time, but that
computed value is unused for persistence: the persisted document's
`dateTime` is always the server-assigned timestamp sentinel. -/
theorem computed_timestamp_not_persisted (svc : Service) (title message : List Char)
    (ty st : String) (sto : Int) (dt : Option Nat) (ss : Bool)
    (sr : Option (List String)) (w : World) :
    (send_notification svc title message ty st sto dt ss sr w).computedNow = dt.getD w.manilaNow
    ∧ ((send_notification svc title message ty st sto dt ss sr w).logDoc).map NotifDoc.dateTime
        = (if svc.firestore_enabled then some TsVal.server else none) := by
  constructor
  · rfl
  · cases he : svc.firestore_enabled
    · simp [send_notification, logStep, he]
    · cases hw : w.logWrite <;> simp [send_notification, logStep, mkDoc, he, hw]

/-- Claim C3, counterexample: a service constructed without a base URL still
attempts the SMS send (the constructor substitutes the default bulk
endpoint; only a missing API token disables SMS). -/
theorem missing_base_url_sms_still_attempted :
    svcNoBase.api_url = defaultBulkUrl
    ∧ (send_notification svcNoBase ("T".data) ("M".data) "Warning" "Active" 0 none true
        (some ["09171234567"]) wBase).smsAttempted = true
    ∧ ((send_notification svcNoBase ("T".data) ("M".data) "Warning" "Active" 0 none true
        (some ["09171234567"]) wBase).smsOutcome).map SmsOutcome.networkCall = some true := by
  refine ⟨rfl, ?_, ?_⟩ <;> decide

/-- Claim C3, amended: if the SMS base URL is absent the constructor falls
back to the default base URL (logging a warning), producing a service
identical to one configured with that default; the SMS branch is not
disabled by a missing base URL. -/
theorem missing_base_url_defaults_service (firestoreClientPresent : Bool) (token : Option String) :
    NotificationService.init firestoreClientPresent token none
      = NotificationService.init firestoreClientPresent token (some "https://sms.iprogtech.com/api/v1")
    ∧ (NotificationService.init firestoreClientPresent token none).api_url = defaultBulkUrl := by
  constructor
  · unfold NotificationService.init
    simp only [Service.mk.injEq, true_and]
    decide
  · rfl

/-- Claim C4: with a configured (truthy) API key, a 200 response parsed to an
object is classified a success exactly when it carries a truthy
`success` flag or its `message` field, rendered and lowercased, contains
the substring `successfully`; any non-200 status, unparseable body,
non-object body, or parsed object without a success indicator is a
failure with `failedCount` equal to the number of recipients. -/
theorem gateway_response_classification (k : String) (hk : pyTruthyOpt (some k) = true)
    (rs : List String) (m : List Char) :
    (∀ fields : List (String × JVal),
        ((sendSmsBatch (some k) rs m (.reply 200 (some (.jobj fields)))).sent = true
          ↔ (((jget fields "success").getD .jnull).truthy = true
             ∨ pyIn "successfully" (pyLower (pyStr ((jget fields "message").getD (.jstr "")))) = true)))
    ∧ (∀ (status : Nat) (body : Option JVal), status ≠ 200 →
        (sendSmsBatch (some k) rs m (.reply status body)).sent = false
        ∧ (sendSmsBatch (some k) rs m (.reply status body)).failedCount = rs.length)
    ∧ ((sendSmsBatch (some k) rs m (.reply 200 none)).sent = false
       ∧ (sendSmsBatch (some k) rs m (.reply 200 none)).failedCount = rs.length)
    ∧ (∀ v : JVal, (∀ fields, v ≠ .jobj fields) →
        (sendSmsBatch (some k) rs m (.reply 200 (some v))).sent = false
        ∧ (sendSmsBatch (some k) rs m (.reply 200 (some v))).failedCount = rs.length)
    ∧ (∀ fields : List (String × JVal), checkSuccess fields = false →
        (sendSmsBatch (some k) rs m (.reply 200 (some (.jobj fields)))).sent = false
        ∧ (sendSmsBatch (some k) rs m (.reply 200 (some (.jobj fields)))).failedCount = rs.length) := by
  refine ⟨?_, ?_, ?_, ?_, ?_⟩
  · intro fields
    rw [sendSmsBatch_truthy (some k) hk]
    cases hc : checkSuccess fields with
    | false =>
      have hc2 := hc
      simp only [checkSuccess, Bool.or_eq_false_iff] at hc2
      simp [sendOk, hc, hc2.1, hc2.2]
    | true =>
      have hc2 := hc
      simp only [checkSuccess, Bool.or_eq_true] at hc2
      simp [sendOk, hc, hc2]
  · intro status body hs
    rw [sendSmsBatch_truthy (some k) hk]
    have hb : (status == 200) = false := by
      simp [hs]
    cases body with
    | none => simp [sendOk]
    | some v =>
      cases v with
      | jobj fields => simp [sendOk, hb]
      | jnull => simp [sendOk]
      | jbool b => simp [sendOk]
      | jnum n => simp [sendOk]
      | jstr s => simp [sendOk]
      | jarr xs => simp [sendOk]
  · rw [sendSmsBatch_truthy (some k) hk]
    simp [sendOk]
  · intro v hv
    rw [sendSmsBatch_truthy (some k) hk]
    cases v with
    | jobj fields => exact absurd rfl (hv fields)
    | jnull => simp [sendOk]
    | jbool b => simp [sendOk]
    | jnum n => simp [sendOk]
    | jstr s => simp [sendOk]
    | jarr xs => simp [sendOk]
  · intro fields hc
    rw [sendSmsBatch_truthy (some k) hk]
    simp [sendOk, hc]

/-- Claim C4, witness: a 500 response is classified a failure with the full
batch counted failed. -/
theorem gateway_response_classification_witness :
    (sendSmsBatch (some "tok") ["09170000001"] ("m".data) (.reply 500 none)).sent = false
    ∧ (sendSmsBatch (some "tok") ["09170000001"] ("m".data) (.reply 500 none)).failedCount = 1 :=
  ((gateway_response_classification "tok" (by decide) ["09170000001"] ("m".data)).2.1
    500 none (by decide))

/-- Claim C5, counterexample: `compose("Note", "loading...")` has length at
most 160 and `4 + 2 + min(10, 120) = 16` does not exceed 160, yet the
output ends in the 3-character ellipsis marker, refuting the claimed
"exactly when". -/
theorem compose_ellipsis_without_overflow :
    (create_sms_message ("Note".data) ("loading...".data)).length ≤ 160
    ∧ List.IsSuffix ['.', '.', '.'] (create_sms_message ("Note".data) ("loading...".data))
    ∧ ("Note".data).length + 2 + min ("loading...".data).length 120 ≤ 160 := by
  refine ⟨by decide, ⟨"Note: loading".data, by decide⟩, by decide⟩

/-- Claim C5, amended: the composed message is the title, the separator, and
the body truncated to 120 characters whenever that fits in 160; the
output length never exceeds 160; and if the combined length exceeds 160
the output is exactly 160 characters and ends in the 3-character
ellipsis marker (the converse does not hold: a short message may end in
the marker naturally). -/
theorem compose_length_bound_and_truncation (title body : List Char) :
    (create_sms_message title body).length ≤ 160
    ∧ (title.length + 2 + min body.length 120 ≤ 160 →
        create_sms_message title body = title ++ [':', ' '] ++ body.take 120)
    ∧ (160 < title.length + 2 + min body.length 120 →
        (create_sms_message title body).length = 160
        ∧ List.IsSuffix ['.', '.', '.'] (create_sms_message title body)) := by
  have hlen : (title ++ [':', ' '] ++ body.take 120).length
      = title.length + 2 + min body.length 120 := by
    simp only [List.length_append, List.length_take, List.length_cons, List.length_nil]
    omega
  by_cases h : (title ++ [':', ' '] ++ body.take 120).length > 160
  · have hq : create_sms_message title body
        = (title ++ [':', ' '] ++ body.take 120).take 157 ++ ['.', '.', '.'] := by
      unfold create_sms_message
      rw [if_pos h]
    have h157 : ((title ++ [':', ' '] ++ body.take 120).take 157).length = 157 := by
      rw [List.length_take]
      omega
    have h160 : (create_sms_message title body).length = 160 := by
      rw [hq, List.length_append, h157]
      rfl
    refine ⟨by omega, ?_, ?_⟩
    · intro hle
      omega
    · intro _
      exact ⟨h160, ⟨(title ++ [':', ' '] ++ body.take 120).take 157, hq.symm⟩⟩
  · have hq : create_sms_message title body = title ++ [':', ' '] ++ body.take 120 := by
      unfold create_sms_message
      rw [if_neg h]
    refine ⟨?_, fun _ => hq, ?_⟩
    · rw [hq]
      omega
    · intro hgt
      exfalso
      omega

set_option maxRecDepth 4000 in
/-- Claim C5, amended, witness: an oversized title forces truncation to
exactly 160 characters. -/
theorem compose_length_bound_and_truncation_witness :
    (create_sms_message (List.replicate 200 'a') []).length = 160 :=
  ((compose_length_bound_and_truncation (List.replicate 200 'a') []).2.2 (by simp)).1

/-- Claim C6: the log branch and the SMS branch of a dispatch are independent.
Stated on the exception-transparent model (so the sequencing of the
source is present): the SMS observables do not depend on the log-write
result, and the log observables do not depend on the users-table or
network results. -/
theorem log_and_sms_branches_independent (svc : Service) (title message : List Char)
    (ty st : String) (sto : Int) (dt : Option Nat) (ss : Bool) (sr : Option (List String))
    (w : World) (lw1 lw2 : Except PyErr Unit)
    (du1 du2 : Except PyErr (List UserRow)) (n1 n2 : HttpResult) :
    ((send_notificationE svc title message ty st sto dt ss sr
        { w with logWrite := lw1 }).map DispatchTrace.smsAttempted
      = (send_notificationE svc title message ty st sto dt ss sr
        { w with logWrite := lw2 }).map DispatchTrace.smsAttempted)
    ∧ ((send_notificationE svc title message ty st sto dt ss sr
        { w with logWrite := lw1 }).map DispatchTrace.smsOutcome
      = (send_notificationE svc title message ty st sto dt ss sr
        { w with logWrite := lw2 }).map DispatchTrace.smsOutcome)
    ∧ ((send_notificationE svc title message ty st sto dt ss sr
        { w with dbUsers := du1, net := n1 }).map DispatchTrace.logAttempted
      = (send_notificationE svc title message ty st sto dt ss sr
        { w with dbUsers := du2, net := n2 }).map DispatchTrace.logAttempted)
    ∧ ((send_notificationE svc title message ty st sto dt ss sr
        { w with dbUsers := du1, net := n1 }).map DispatchTrace.logPersisted
      = (send_notificationE svc title message ty st sto dt ss sr
        { w with dbUsers := du2, net := n2 }).map DispatchTrace.logPersisted)
    ∧ ((send_notificationE svc title message ty st sto dt ss sr
        { w with dbUsers := du1, net := n1 }).map DispatchTrace.logDoc
      = (send_notificationE svc title message ty st sto dt ss sr
        { w with dbUsers := du2, net := n2 }).map DispatchTrace.logDoc) := by
  simp only [send_notificationE_ok, Except.map]
  exact ⟨rfl, rfl, rfl, rfl, rfl⟩

/-- Claim C7: no failure of the persistence path, the directory lookup, or
the delivery path ever raises out of a dispatch: for every input and
every environment the exception-transparent run completes with the pure
trace. -/
theorem dispatch_never_raises (svc : Service) (title message : List Char)
    (ty st : String) (sto : Int) (dt : Option Nat) (ss : Bool)
    (sr : Option (List String)) (w : World) :
    send_notificationE svc title message ty st sto dt ss sr w
      = .ok (send_notification svc title message ty st sto dt ss sr w) :=
  send_notificationE_ok svc title message ty st sto dt ss sr w

/-- Claim C8: with SMS requested, no explicit recipients and a configured API
key, a failing users-table query makes the adapter return an empty list
(as a caught, non-raised error) and the dispatcher then skips the send:
the directory was queried but no gateway call is attempted. -/
theorem lookup_error_skips_sms (svc : Service) (hk : pyTruthyOpt svc.api_key = true)
    (title message : List Char) (ty st : String) (sto : Int) (dt : Option Nat)
    (w : World) (e : PyErr) (hdb : w.dbUsers = .error e) :
    get_registered_users_phones w.dbUsers = []
    ∧ get_registered_users_phonesE w.dbUsers = .ok []
    ∧ (send_notification svc title message ty st sto dt true none w).dbQueried = true
    ∧ (send_notification svc title message ty st sto dt true none w).smsAttempted = false
    ∧ (send_notification svc title message ty st sto dt true none w).smsOutcome = none := by
  have h0 : get_registered_users_phones w.dbUsers = [] := by
    rw [hdb]
    rfl
  refine ⟨h0, by rw [hdb]; rfl, ?_, ?_, ?_⟩ <;>
    simp [send_notification, smsStep, hk, h0]

/-- Claim C8, witness at a concrete failing world. -/
theorem lookup_error_skips_sms_witness :
    (send_notification svcFs ("T".data) ("M".data) "Warning" "Active" 0 none true none
      wDbErr).smsAttempted = false :=
  (lookup_error_skips_sms svcFs (by decide) ("T".data) ("M".data) "Warning" "Active" 0 none
    wDbErr (.exc "connection refused") rfl).2.2.2.1

/-- Claim C9: the persisted document carries exactly the caller-supplied
`sent_to` value, whatever the recipient resolution or delivery outcome;
and the hazard-broadcast entry point, which omits `sent_to`, persists
the default `0`. -/
theorem persisted_sentTo_verbatim (svc : Service) (hfs : svc.firestore_enabled = true)
    (title message : List Char) (ty st : String) (sto : Int) (dt : Option Nat)
    (ss : Bool) (sr : Option (List String)) (w : World)
    (token base_url : Option String) (hazard m2 : List Char)
    (recipients : Option (List String)) (w2 : World) :
    (send_notification svc title message ty st sto dt ss sr w).logDoc
      = some { dateTime := TsVal.server, message := message, title := title,
               type := ty, status := st, sentTo := sto }
    ∧ (send_weather_alert true token base_url hazard m2 recipients w2).logDoc
      = some { dateTime := TsVal.server, message := m2,
               title := "⚠️ ".data ++ hazard ++ " Alert".data,
               type := "Alert", status := "Active", sentTo := 0 } := by
  constructor
  · cases hw : w.logWrite <;>
      simp [send_notification, logStep, mkDoc, hfs, hw]
  · cases hw : w2.logWrite <;>
      simp [send_weather_alert, send_notification, NotificationService.init, logStep, mkDoc, hw]

/-- Claim C9, witness at a concrete service and world. -/
theorem persisted_sentTo_verbatim_witness :
    (send_notification svcFs ("T".data) ("M".data) "Warning" "Active" 7 none false none
      wBase).logDoc
      = some { dateTime := TsVal.server, message := "M".data, title := "T".data,
               type := "Warning", status := "Active", sentTo := 7 } :=
  (persisted_sentTo_verbatim svcFs rfl ("T".data) ("M".data) "Warning" "Active" 7 none false
    none wBase none none [] [] none wBase).1

/-- Claim C10: with a falsy API credential the dispatcher's gate closes the
whole SMS branch before recipient resolution: the directory is never
queried and no send is attempted. -/
theorem missing_credential_skips_lookup (svc : Service) (hk : pyTruthyOpt svc.api_key = false)
    (title message : List Char) (ty st : String) (sto : Int) (dt : Option Nat)
    (ss : Bool) (sr : Option (List String)) (w : World) :
    (send_notification svc title message ty st sto dt ss sr w).dbQueried = false
    ∧ (send_notification svc title message ty st sto dt ss sr w).smsAttempted = false
    ∧ (send_notification svc title message ty st sto dt ss sr w).smsOutcome = none := by
  simp [send_notification, smsStep, hk]

/-- Claim C10, witness: a service with no token queries nothing. -/
theorem missing_credential_skips_lookup_witness :
    (send_notification (NotificationService.init true none (some "https://sms.example.com"))
      ("T".data) ("M".data) "Warning" "Active" 0 none true none wBase).dbQueried = false :=
  (missing_credential_skips_lookup (NotificationService.init true none (some "https://sms.example.com"))
    rfl ("T".data) ("M".data) "Warning" "Active" 0 none true none wBase).1

end Hydromet
